import Mathlib

/-!
Shallow embedding of the Orion-Assistant email voice agent
(`src/models/conversation_state.py`, `src/models/intent_models.py`,
`src/models/email_models.py`, `src/services/intent_recognition.py`,
`src/services/email_service.py`, `src/agents/conversation_manager.py`).

Modelling conventions:
* Python `Optional[str]` becomes `Option String`; Python truthiness of an
  optional string (`None` and `""` are falsy) is `optStrTruthy`.
* Python dictionaries of entities (keys `recipient`, `subject`, `body`,
  `count`, `query`, `field`) become the `Entities` structure; key presence
  is `Option.isSome`.
* External collaborators (the Gemini AI classifier, the Nylas client and
  the Gemini summarizer) are inputs: each call site takes the
  collaborator's outcome as an `Except String` argument, `Except.error`
  standing for a raised exception.
* Python `float` confidences are embedded as rationals (the code only ever
  compares against the literals 0.7 / 0.8, where float and rational
  comparison agree).
* Message timestamps (`datetime.now()`) and the `last_interaction` field
  are real-time effects and are omitted from the state; no claim refers to
  them.
-/

namespace Orion

/-- Phases of `ConversationPhase` in `src/models/conversation_state.py`. -/
inductive ConversationPhase where
| idle
| collectingInfo
| processing
| waitingConfirmation
| error
deriving DecidableEq, Repr

/-- The `IntentType` enum in `src/models/intent_models.py`. -/
inductive IntentType where
| sendEmail
| readEmail
| searchEmail
| replyEmail
| deleteEmail
| markRead
| confirm
| cancel
| help
| repeatIntent
| clarify
| nextIntent
| previousIntent
| greeting
| goodbye
| thankYou
| unclear
deriving DecidableEq, Repr

/-- The `.value` string of each `IntentType` member. -/
def IntentType.value : IntentType → String
| .sendEmail => "send_email"
| .readEmail => "read_email"
| .searchEmail => "search_email"
| .replyEmail => "reply_email"
| .deleteEmail => "delete_email"
| .markRead => "mark_read"
| .confirm => "confirm"
| .cancel => "cancel"
| .help => "help"
| .repeatIntent => "repeat"
| .clarify => "clarify"
| .nextIntent => "next"
| .previousIntent => "previous"
| .greeting => "greeting"
| .goodbye => "goodbye"
| .thankYou => "thank_you"
| .unclear => "unclear"

/-- One entry of `conversation_history`: the dict
`{"role": role, "content": content, "timestamp": ...}` built by
`ConversationState.add_message` (the wall-clock timestamp is omitted). -/
structure Message where
role : String
content : String
deriving DecidableEq, Repr

/-- The `EmailDraft` dataclass in `src/models/email_models.py`
(`cc`, `bcc`, `attachments` are never read by the code under study). -/
structure EmailDraft where
recipient : Option String := none
cc : Option (List String) := none
bcc : Option (List String) := none
subject : Option String := none
body : Option String := none
attachments : List String := []
deriving DecidableEq, Repr

/-- Python truthiness of an `Optional[str]`: `None` and `""` are falsy. -/
def optStrTruthy : Option String → Bool
| none => false
| some s => !s.isEmpty

/-- Rendering an `Optional[str]` inside an f-string: `None` prints as
the string `None`. -/
def pyStr : Option String → String
| some s => s
| none => "None"

/-- The `ConversationState` dataclass in `src/models/conversation_state.py`
(`last_interaction` and `context_data` omitted: wall-clock time and a dict
never read by the code under study). -/
structure ConversationState where
phase : ConversationPhase := .idle
current_intent : Option IntentType := none
draft_email : Option EmailDraft := none
current_email_id : Option String := none
last_search_query : Option String := none
last_search_results : List String := []
conversation_history : List Message := []
last_error : Option String := none
deriving DecidableEq, Repr

/-- The history cap applied at the end of `add_message`: Python
`if len(h) > 20: h = h[-20:]`.  Since `h[-20:] = h.drop (len - 20)` and
truncated subtraction makes the drop a no-op when `len ≤ 20`, this is one
unconditional drop. -/
def capHistory (h : List Message) : List Message :=
h.drop (h.length - 20)

/-- `ConversationState.add_message`: append the message, then keep the
last 20 entries. -/
def ConversationState.add_message (s : ConversationState) (role content : String) :
    ConversationState :=
{ s with conversation_history := capHistory (s.conversation_history ++ [⟨role, content⟩]) }

/-- `ConversationState.reset`: back to idle, clearing intent, draft and
search context but keeping the history (`clear_error` is a no-op on
`last_error := none` with phase already idle). -/
def ConversationState.reset (s : ConversationState) : ConversationState :=
{ s with
  phase := .idle
  current_intent := none
  draft_email := none
  current_email_id := none
  last_search_query := none
  last_search_results := []
  last_error := none }

/-- The entity dictionary attached to an intent.  The code only ever reads
the keys `recipient`, `subject`, `body`, `count`, `query` and `field`;
`Option.isSome` models key presence. -/
structure Entities where
recipient : Option String := none
subject : Option String := none
body : Option String := none
count : Option Nat := none
query : Option String := none
field : Option String := none
deriving DecidableEq, Repr

/-- The `UserIntent` dataclass in `src/models/intent_models.py`. -/
structure UserIntent where
type : IntentType
confidence : ℚ
entities : Entities := {}
original_text : String := ""
deriving DecidableEq, Repr

/-- The `IntentClassification` pydantic model returned by the Gemini
structured-output call (the unused `reasoning` field is omitted). -/
structure IntentClassification where
intent : IntentType
confidence : ℚ
entities : Entities := {}
deriving DecidableEq, Repr

/-- Python `str.lower()` (structural form of `String.toLower`). -/
def pyLower (s : String) : String :=
String.mk (s.data.map Char.toLower)

/-- Python `str.strip()`: drop leading and trailing whitespace
(structural form of `String.trim`). -/
def pyStrip (s : String) : String :=
String.mk (((s.data.dropWhile Char.isWhitespace).reverse.dropWhile Char.isWhitespace).reverse)

/-- Python substring membership `needle in hay`. -/
def strContains (hay needle : String) : Bool :=
(List.range (hay.data.length + 1)).any fun i => needle.data.isPrefixOf (hay.data.drop i)

/-- `IntentRecognitionService._context_based_intent`: while collecting a
`SEND_EMAIL` draft, interpret the whole (stripped) utterance as the first
still-missing draft field, with confidence 0.7. -/
def context_based_intent (text : String) (context : ConversationState) : UserIntent :=
match context.draft_email with
| some d =>
  if context.current_intent = some IntentType.sendEmail then
    let ents : Entities :=
      if !optStrTruthy d.recipient then { recipient := some (pyStrip text) }
      else if !optStrTruthy d.subject then { subject := some (pyStrip text) }
      else if !optStrTruthy d.body then { body := some (pyStrip text) }
      else {}
    { type := .sendEmail, confidence := 7/10, entities := ents, original_text := text }
  else
    { type := .unclear, confidence := 0, original_text := text }
| none => { type := .unclear, confidence := 0, original_text := text }

/-- `IntentRecognitionService._pattern_intent_recognition`.  The regex
table scan together with `_extract_entities` is abstracted as the input
`patternMatch`: `some (it, ents)` when some pattern of intent `it` matches
the lowercased text and `ents` are the extracted entities, `none` when no
pattern matches.  A pattern hit is returned with confidence 0.8; otherwise
the `COLLECTING_INFO` context fallback applies. -/
def pattern_intent_recognition (patternMatch : Option (IntentType × Entities))
    (text : String) (context : Option ConversationState) : UserIntent :=
match patternMatch with
| some (it, ents) =>
  { type := it, confidence := 8/10, entities := ents, original_text := text }
| none =>
  match context with
  | some c =>
    if c.phase = ConversationPhase.collectingInfo then context_based_intent text c
    else { type := .unclear, confidence := 0, original_text := text }
  | none => { type := .unclear, confidence := 0, original_text := text }

/-- `IntentRecognitionService.recognize_intent`: accept the AI
classification only when its confidence is strictly above 0.7, otherwise
fall back to pattern recognition.  `aiResult` is the outcome of
`_ai_intent_recognition` (which returns `None` on any AI failure, so the
outer `except` branch of `recognize_intent` is unreachable and not
modelled). -/
def recognize_intent (aiResult : Option IntentClassification)
    (patternMatch : Option (IntentType × Entities))
    (text : String) (context : Option ConversationState) : UserIntent :=
match aiResult with
| some d =>
  if d.confidence > 7/10 then
    { type := d.intent, confidence := d.confidence, entities := d.entities,
      original_text := text }
  else pattern_intent_recognition patternMatch text context
| none => pattern_intent_recognition patternMatch text context

/-- One entry of an email's `senders`/`recipients` list: a dict with an
`email` key and an optional `name` key. -/
structure Sender where
email : String
name : Option String := none
deriving DecidableEq, Repr

/-- The `Email` data model of `src/clients/nylas.py` (constructor defaults:
empty strings, empty lists, date 0). -/
structure Email where
id : String := ""
senders : List Sender := []
recipients : List Sender := []
subject : String := ""
body : String := ""
date : Nat := 0
deriving DecidableEq, Repr

/-- The `EmailSummary` dataclass in `src/models/email_models.py`. -/
structure EmailSummary where
id : String
sender_email : String
sender_name : String
subject : String
body_preview : String
date : Nat
date_str : String
is_unread : Bool := false
has_attachments : Bool := false
deriving DecidableEq, Repr

/-- The `SearchResult` dataclass in `src/models/email_models.py`. -/
structure SearchResult where
email_summary : EmailSummary
relevance_score : ℚ
matched_field : String
deriving DecidableEq, Repr

/-- The `EmailRequest` dataclass.  The conversation manager always builds
it from `draft_email.recipient/subject/body`, all `Optional[str]`, so the
`to` field is embedded as `Option String` (of the `Union[str, List]`
declared type only the `str` arm is exercised by the code under study). -/
structure EmailRequest where
«to» : Option String
subject : Option String
body : Option String
deriving DecidableEq, Repr

/-- The `EmailResponse` dataclass. -/
structure EmailResponse where
success : Bool
message : String
error : Option String := none
email_id : Option String := none
deriving DecidableEq, Repr

/-- `EmailService._create_email_summary`.  External effects are inputs:
`summarize` is the Gemini `summarize_text` call (used for bodies longer
than 200 characters) and `fmtDate` the `datetime`-based formatting of a
nonzero timestamp.  When `senders` is empty, `senders[0].get('name', ...)`
raises `IndexError`, modelled as `Except.error`. -/
def create_email_summary (summarize : String → Except String String)
    (fmtDate : Nat → String) (email : Email) (include_full_body : Bool) :
    Except String EmailSummary := do
  match email.senders.head? with
  | none => throw "IndexError: list index out of range"
  | some s0 =>
    let sender_email := s0.email
    let sender_name := s0.name.getD ((sender_email.splitOn "@").headD sender_email)
    let body_preview ←
      if include_full_body then pure email.body
      else if email.body.length > 200 then summarize email.body
      else if email.body.length > 100 then pure (String.mk (email.body.data.take 100) ++ "...")
      else pure email.body
    let date_str := if email.date ≠ 0 then fmtDate email.date else "unknown time"
    pure { id := email.id, sender_email := sender_email, sender_name := sender_name,
           subject := email.subject, body_preview := body_preview,
           date := email.date, date_str := date_str, is_unread := false }

/-- `EmailService.send_email`.  `clientSend` is the
`nylas_client.send_email` call, applied to the formatted recipient list,
subject and body; `Except.error` stands for a raised exception.  Every
outcome, including an exception, is turned into an `EmailResponse`. -/
def send_email
    (clientSend : Option (List Sender) → Option String → Option String → Except String Bool)
    (request : EmailRequest) : EmailResponse :=
let toFmt : Option (List Sender) :=
  match request.«to» with
  | some s => some [{ email := s, name := some ((s.splitOn "@").headD s) }]
  | none => none
match clientSend toFmt request.subject request.body with
| .ok true =>
  { success := true, message := "Email sent successfully to " ++ pyStr request.«to» }
| .ok false =>
  { success := false, message := "Failed to send email",
    error := some "Unknown error from email service" }
| .error e =>
  { success := false, message := "Failed to send email", error := some e }

/-- `EmailService.read_recent_emails`: fetch from the Nylas client and
summarize; any exception anywhere in the `try` block yields `[]`. -/
def read_recent_emails (clientRead : Except String (List Email))
    (summarize : String → Except String String) (fmtDate : Nat → String) :
    List EmailSummary :=
match (do
  let emails ← clientRead
  emails.mapM fun e => create_email_summary summarize fmtDate e false :
    Except String (List EmailSummary)) with
| .ok summaries => summaries
| .error _ => []

/-- The body of the `try` block of `EmailService.search_emails`.
`clientReadBulk` is `nylas_client.read_emails(limit=50)`, `vectorSearch`
the Gemini vector search (the intermediate dict round-trip of the Python
code is elided: it yields the email together with its score) and
`clientSearch` the regular `nylas_client.search_emails`. -/
def search_emails_core (useAi : Bool) (query search_field : String) (limit : Nat)
    (clientReadBulk : Except String (List Email))
    (vectorSearch : List Email → String → String → Nat → Except String (List (Email × ℚ)))
    (clientSearch : String → String → Nat → Except String (List Email))
    (summarize : String → Except String String) (fmtDate : Nat → String) :
    Except String (List SearchResult) := do
  if useAi && (search_field = "body" || search_field = "all") then
    let emails ← clientReadBulk
    if !emails.isEmpty then
      let results ← vectorSearch emails query search_field limit
      let searchResults ← results.mapM fun p => do
        let summary ← create_email_summary summarize fmtDate p.1 false
        pure { email_summary := summary, relevance_score := p.2,
               matched_field := search_field : SearchResult }
      return searchResults
  let emails ← clientSearch query search_field limit
  emails.mapM fun e => do
    let summary ← create_email_summary summarize fmtDate e false
    pure { email_summary := summary, relevance_score := 1,
           matched_field := search_field : SearchResult }

/-- `EmailService.search_emails`: the `try` body with its catch-all
`except` branch returning `[]`. -/
def search_emails (useAi : Bool) (query search_field : String) (limit : Nat)
    (clientReadBulk : Except String (List Email))
    (vectorSearch : List Email → String → String → Nat → Except String (List (Email × ℚ)))
    (clientSearch : String → String → Nat → Except String (List Email))
    (summarize : String → Except String String) (fmtDate : Nat → String) :
    List SearchResult :=
match search_emails_core useAi query search_field limit clientReadBulk vectorSearch
    clientSearch summarize fmtDate with
| .ok results => results
| .error _ => []

/-- A record of one `email_service.send_email` call made by the manager:
the recipient, subject and body of the `EmailRequest` it passed. -/
structure SendCall where
«to» : Option String
subject : Option String
body : Option String
deriving DecidableEq, Repr

/-- The email-service collaborator as the conversation manager sees it:
the three methods it calls, with `Except.error` standing for a raised
exception reaching the manager. -/
structure EmailOps where
send : SendCall → Except String EmailResponse
read : Nat → Except String (List EmailSummary)
search : String → String → Except String (List SearchResult)

/-- `ConversationManager._get_missing_email_fields`. -/
def get_missing_email_fields (draft : Option EmailDraft) : List String :=
match draft with
| none => ["recipient", "subject", "body"]
| some d =>
  (if optStrTruthy d.recipient then [] else ["recipient"]) ++
  (if optStrTruthy d.subject then [] else ["subject"]) ++
  (if optStrTruthy d.body then [] else ["body"])

/-- `ConversationManager._ask_for_missing_field`. -/
def ask_for_missing_field (f : String) : String :=
if f = "recipient" then "Who would you like to send this email to?"
else if f = "subject" then "What\x27s the subject of your email?"
else if f = "body" then "What would you like to say in the email?"
else "What\x27s the " ++ f ++ "?"

/-- `ConversationManager._format_email_confirmation`. -/
def format_email_confirmation (s : ConversationState) : String :=
match s.draft_email with
| none => "I don\x27t have any email to confirm."
| some d =>
  "I\x27m ready to send an email to " ++ pyStr d.recipient ++
  " with the subject \x27" ++ pyStr d.subject ++
  "\x27. The message says: " ++ pyStr d.body ++ ". Should I send it?"

/-- `ConversationManager._handle_send_email`: enter `COLLECTING_INFO`,
merge entity values into the draft, then either ask for the first missing
field or move to `WAITING_CONFIRMATION` with the confirmation prompt. -/
def handle_send_email (s : ConversationState) (intent : UserIntent) :
    ConversationState × String :=
let s1 := { s with phase := ConversationPhase.collectingInfo,
                   current_intent := some IntentType.sendEmail }
let d0 := s1.draft_email.getD {}
let d : EmailDraft :=
  { d0 with
    recipient := match intent.entities.recipient with
                 | some r => some r
                 | none => d0.recipient
    subject := match intent.entities.subject with
               | some v => some v
               | none => d0.subject
    body := match intent.entities.body with
            | some v => some v
            | none => d0.body }
let s2 := { s1 with draft_email := some d }
match get_missing_email_fields s2.draft_email with
| [] => ({ s2 with phase := ConversationPhase.waitingConfirmation },
         format_email_confirmation { s2 with phase := ConversationPhase.waitingConfirmation })
| f :: _ => (s2, ask_for_missing_field f)

/-- Voice listing of the first emails, Python
`for i, email in enumerate(emails[:3], 1)`. -/
def formatEmailListing : Nat → List EmailSummary → String
| _, [] => ""
| i, e :: rest =>
  "Email " ++ toString i ++ ": From " ++ e.sender_name ++ ", subject: " ++
  e.subject ++ ". " ++ formatEmailListing (i + 1) rest

/-- `ConversationManager._handle_read_email`.  Note that the empty-inbox
early return leaves the phase at `PROCESSING` (only the nonempty and
exception branches set it back to `IDLE`). -/
def handle_read_email (read : Nat → Except String (List EmailSummary))
    (s : ConversationState) (intent : UserIntent) : ConversationState × String :=
let s1 := { s with phase := ConversationPhase.processing,
                   current_intent := some IntentType.readEmail }
let count := intent.entities.count.getD 3
match read count with
| .error _ =>
  ({ s1 with phase := ConversationPhase.idle },
   "I had trouble accessing your emails. Please try again later.")
| .ok emails =>
  if emails.isEmpty then
    (s1, "You don\x27t have any new emails in your inbox.")
  else
    let n := emails.length
    ({ s1 with phase := ConversationPhase.idle },
     "You have " ++ (toString n ++ (" recent email" ++ ((if n > 1 then "s" else "") ++ (". " ++
     (formatEmailListing 1 (emails.take 3) ++
     ((if n > 3 then "And " ++ (toString (n - 3) ++ " more. ") else "") ++
     "Would you like me to read any of these in detail?")))))))

/-- The listing loop of `_handle_search_email`, Python
`for i, email in enumerate(results[:2], 1): response += f"Result {i}: From {email.sender_name}, subject: {email.subject}. "`.
Here `email` is a `SearchResult`, a dataclass with only `email_summary`,
`relevance_score` and `matched_field`: `sender_name`/`subject` live on the
nested `EmailSummary`, not on `SearchResult`, so the first iteration over
a nonempty slice raises `AttributeError`; only the empty slice completes
(with an empty listing). -/
def formatResultListing : Nat → List SearchResult → Except String String
| _, [] => Except.ok ""
| _, _ :: _ =>
  Except.error "AttributeError: \x27SearchResult\x27 object has no attribute \x27sender_name\x27"

/-- `ConversationManager._handle_search_email`.  In the nonempty-result
branch the listing loop reads `email.sender_name` on a `SearchResult`
(see `formatResultListing`), so it raises `AttributeError` into the
handler\x27s `except` branch, which sets phase `IDLE` and returns the
trouble-searching apology; the fully formatted response is reachable only
for an empty slice, i.e. never in that branch. -/
def handle_search_email (search : String → String → Except String (List SearchResult))
    (s : ConversationState) (intent : UserIntent) : ConversationState × String :=
let s1 := { s with phase := ConversationPhase.processing,
                   current_intent := some IntentType.searchEmail }
let query := intent.entities.query.getD ""
if query = "" then
  ({ s1 with phase := ConversationPhase.collectingInfo },
   "What would you like to search for in your emails?")
else
  match search query (intent.entities.field.getD "all") with
  | .error _ =>
    ({ s1 with phase := ConversationPhase.idle },
     "I had trouble searching your emails. Please try again.")
  | .ok results =>
    if results.isEmpty then
      ({ s1 with phase := ConversationPhase.idle },
       "I couldn\x27t find any emails matching \x27" ++ (query ++ "\x27."))
    else
      let n := results.length
      match formatResultListing 1 (results.take 2) with
      | .error _ =>
        ({ s1 with phase := ConversationPhase.idle },
         "I had trouble searching your emails. Please try again.")
      | .ok listing =>
        ({ s1 with phase := ConversationPhase.idle },
         "I found " ++ (toString n ++ (" email" ++ ((if n > 1 then "s" else "") ++
         (" matching \x27" ++ (query ++ ("\x27. " ++
         (listing ++
         (if n > 2 then "And " ++ (toString (n - 2) ++ " more results. ") else "")))))))))

/-- `ConversationManager._handle_reply_email`. -/
def handle_reply_email (s : ConversationState) : ConversationState × String :=
(s, "Reply functionality is coming soon. For now, you can send a new email instead.")

/-- `ConversationManager._handle_confirmation`.  On the send path the
Python code resets the state and only then builds the success message from
`self.state.draft_email.recipient`; since `reset` has just set the draft
to `None`, that attribute access raises `AttributeError`, which the
enclosing `except` turns into the error apology.  The embedding keeps the
(unreachable) success branch and the reachable `AttributeError` branch
explicit.  The third component records the `send_email` calls made. -/
def handle_confirmation (send : SendCall → Except String EmailResponse)
    (s : ConversationState) : ConversationState × String × List SendCall :=
if s.phase ≠ ConversationPhase.waitingConfirmation then
  (s, "I\x27m not sure what you\x27re confirming. How can I help you?", [])
else
  match s.draft_email with
  | some d =>
    if s.current_intent = some IntentType.sendEmail then
      let call : SendCall := { «to» := d.recipient, subject := d.subject, body := d.body }
      match send call with
      | .error _ =>
        ({ s with phase := ConversationPhase.idle },
         "I encountered an error sending the email. Please try again.", [call])
      | .ok _ =>
        let s1 := s.reset
        match s1.draft_email with
        | some d1 =>
          (s1, "Great! I\x27ve sent your email to " ++ pyStr d1.recipient ++ ".", [call])
        | none =>
          ({ s1 with phase := ConversationPhase.idle },
           "I encountered an error sending the email. Please try again.", [call])
    else (s, "I\x27m not sure what to confirm. How can I help you?", [])
  | none => (s, "I\x27m not sure what to confirm. How can I help you?", [])

/-- `ConversationManager._handle_cancel`. -/
def handle_cancel (s : ConversationState) : ConversationState × String :=
if s.phase = ConversationPhase.idle then
  (s, "There\x27s nothing to cancel. How can I help you?")
else
  let previous_intent := s.current_intent
  (s.reset,
   "Okay, I\x27ve cancelled the " ++
   (match previous_intent with
    | some i => i.value
    | none => "current operation") ++
   ". What would you like to do instead?")

/-- `ConversationManager._handle_help`. -/
def handle_help (s : ConversationState) : ConversationState × String :=
(s, "I can help you with your emails! You can ask me to: " ++
    "Send an email by saying \x27Send an email to someone\x27. " ++
    "Read your recent emails by saying \x27Read my emails\x27. " ++
    "Or search for specific emails by saying \x27Search for\x27 followed by what you\x27re looking for. " ++
    "What would you like to do?")

/-- `ConversationManager._handle_unclear`. -/
def handle_unclear (s : ConversationState) : ConversationState × String :=
if s.phase = ConversationPhase.collectingInfo ∧
   s.current_intent = some IntentType.sendEmail then
  match get_missing_email_fields s.draft_email with
  | f :: _ => (s, ask_for_missing_field f)
  | [] =>
    (s, "I didn\x27t quite understand that. Could you please rephrase? You can say \x27help\x27 to hear what I can do.")
else
  (s, "I didn\x27t quite understand that. Could you please rephrase? You can say \x27help\x27 to hear what I can do.")

/-- `ConversationManager._handle_email_correction`. -/
def handle_email_correction (s : ConversationState) : ConversationState × String :=
({ s with phase := ConversationPhase.collectingInfo },
 "What would you like to change? The recipient, subject, or message?")

/-- The positive words scanned by `_handle_confirmation_phase`. -/
def positiveWords : List String := ["yes", "yeah", "yep", "sure", "correct", "right", "send it"]

/-- The negative words scanned by `_handle_confirmation_phase`. -/
def negativeWords : List String := ["no", "nope", "cancel", "stop", "wait"]

/-- `ConversationManager._handle_confirmation_phase`: substring scan of
the lowercased raw text for positive words first, then negative words,
then the correction path for a pending `SEND_EMAIL`. -/
def handle_confirmation_phase (send : SendCall → Except String EmailResponse)
    (s : ConversationState) (text : String) : ConversationState × String × List SendCall :=
let text_lower := pyLower text
if positiveWords.any (fun w => strContains text_lower w) then
  handle_confirmation send s
else if negativeWords.any (fun w => strContains text_lower w) then
  ({ s with phase := ConversationPhase.collectingInfo },
   "Okay, what would you like to change?", [])
else if s.current_intent = some IntentType.sendEmail then
  let (s1, r) := handle_email_correction s
  (s1, r, [])
else
  (s, "Please say \x27yes\x27 to confirm or \x27no\x27 to make changes.", [])

/-- Dispatch through `self.intent_handlers` with `_handle_unclear` as the
default for intent types absent from the table. -/
def dispatch (ops : EmailOps) (s : ConversationState) (intent : UserIntent) :
    ConversationState × String × List SendCall :=
match intent.type with
| .sendEmail => let (s1, r) := handle_send_email s intent; (s1, r, [])
| .readEmail => let (s1, r) := handle_read_email ops.read s intent; (s1, r, [])
| .searchEmail => let (s1, r) := handle_search_email ops.search s intent; (s1, r, [])
| .replyEmail => let (s1, r) := handle_reply_email s; (s1, r, [])
| .confirm => handle_confirmation ops.send s
| .cancel => let (s1, r) := handle_cancel s; (s1, r, [])
| .help => let (s1, r) := handle_help s; (s1, r, [])
| _ => let (s1, r) := handle_unclear s; (s1, r, [])

/-- Outcome of one `process_user_input` turn: the final state, the
returned response, and the `send_email` calls made during the turn. -/
structure TurnResult where
state : ConversationState
response : String
sendCalls : List SendCall
deriving Repr

/-- `ConversationManager.process_user_input`.  The user text is appended
to history; `intent` is the value returned by
`intent_service.recognize_intent` for this turn.  When the phase is
`WAITING_CONFIRMATION` the result of `_handle_confirmation_phase` is
returned directly (without recording the assistant response in history);
on every other path the response is appended to history before being
returned.  No handler raises in the embedding, so the outer `except` of
the Python method is unreachable and not modelled. -/
def process_user_input (ops : EmailOps) (s : ConversationState)
    (text : String) (intent : UserIntent) : TurnResult :=
let s0 := s.add_message "user" text
if s0.phase = ConversationPhase.waitingConfirmation then
  let (s1, r, calls) := handle_confirmation_phase ops.send s0 text
  { state := s1, response := r, sendCalls := calls }
else
  let (s1, r, calls) := dispatch ops s0 intent
  { state := s1.add_message "assistant" r, response := r, sendCalls := calls }

/-- Iterated `add_message`, for stating the history-cap invariant over an
arbitrary sequence of turns. -/
def addAll (s : ConversationState) (msgs : List (String × String)) : ConversationState :=
msgs.foldl (fun st p => st.add_message p.1 p.2) s

/-- A history dict built from a role/content pair. -/
def mkMessage (p : String × String) : Message :=
{ role := p.1, content := p.2 }

/-- The conversation manager wired to the real `EmailService` layer
(`src/services/email_service.py`): each manager-facing method is the
service function applied to the underlying Nylas/Gemini client outcomes,
and since every service method catches its exceptions, the manager-facing
result is always `Except.ok`. -/
def serviceOps
    (clientSend : Option (List Sender) → Option String → Option String → Except String Bool)
    (clientRead : Nat → Except String (List Email))
    (clientReadBulk : Except String (List Email))
    (vectorSearch : List Email → String → String → Nat → Except String (List (Email × ℚ)))
    (clientSearch : String → String → Nat → Except String (List Email))
    (summarize : String → Except String String) (fmtDate : Nat → String) : EmailOps :=
{ send := fun call =>
    .ok (send_email clientSend { «to» := call.«to», subject := call.subject, body := call.body })
  read := fun n => .ok (read_recent_emails (clientRead n) summarize fmtDate)
  search := fun query search_field =>
    .ok (search_emails true query search_field 5 clientReadBulk vectorSearch clientSearch
          summarize fmtDate) }

/-- Test fixture: an email-service collaborator that succeeds with empty
results. -/
def opsEmpty : EmailOps :=
{ send := fun _ => .ok { success := true, message := "sent" }
  read := fun _ => .ok []
  search := fun _ _ => .ok [] }

/-- Test fixture: a complete draft email. -/
def draftComplete : EmailDraft :=
{ recipient := some "a@b.com", subject := some "Hello", body := some "Hi there" }

/-- Test fixture: conversation waiting for confirmation of the complete
draft. -/
def stateWaiting : ConversationState :=
{ phase := .waitingConfirmation, current_intent := some IntentType.sendEmail,
  draft_email := some draftComplete }

/-- Test fixture: conversation collecting info for a fresh (all-empty)
`SEND_EMAIL` draft. -/
def stateCollecting : ConversationState :=
{ phase := .collectingInfo, current_intent := some IntentType.sendEmail,
  draft_email := some {} }

/-- Test fixture: an intent value of a given type with no entities. -/
def bareIntent (t : IntentType) : UserIntent :=
{ type := t, confidence := 1 }

/-- Test fixture: a voice-friendly summary with the given sender name and
subject. -/
def mkSummary (n subj : String) : EmailSummary :=
{ id := "id", sender_email := "e@x.com", sender_name := n, subject := subj,
  body_preview := "p", date := 1, date_str := "today" }

/-- Test fixture: an email service whose read call returns five emails. -/
def opsFive : EmailOps :=
{ opsEmpty with
  read := fun _ =>
    Except.ok [mkSummary "A" "sa", mkSummary "B" "sb", mkSummary "C" "sc",
               mkSummary "D" "sd", mkSummary "E" "se"] }

/-- Test fixture: the manager wired to the real service layer with
clients that always succeed (send delivers, reads and searches find
nothing). -/
def opsService : EmailOps :=
serviceOps (fun _ _ _ => Except.ok true) (fun _ => Except.ok []) (Except.ok [])
  (fun _ _ _ _ => Except.ok []) (fun _ _ _ => Except.ok []) Except.ok (fun _ => "t")

/-- Test fixture: the manager wired to the real service layer with a
Nylas read client that always raises. -/
def opsReadBoom : EmailOps :=
serviceOps (fun _ _ _ => Except.ok true) (fun _ => Except.error "boom") (Except.ok [])
  (fun _ _ _ _ => Except.ok []) (fun _ _ _ => Except.ok []) Except.ok (fun _ => "t")

/-- Test fixture: a search intent carrying the query "a". -/
def searchIntentA : UserIntent :=
{ type := .searchEmail, confidence := 1, entities := { query := some "a" } }

/-- Test fixture: one raw client email. -/
def emailOne : Email :=
{ id := "1", senders := [{ email := "a@x.com", name := some "A" }], subject := "s",
  body := "b", date := 1 }

/-- Test fixture: the manager wired to the real service layer with a
search client that successfully returns one email. -/
def opsSearchOne : EmailOps :=
serviceOps (fun _ _ _ => Except.ok true) (fun _ => Except.ok []) (Except.ok [])
  (fun _ _ _ _ => Except.ok []) (fun _ _ _ => Except.ok [emailOne]) Except.ok (fun _ => "t")

/-- Test fixture: the manager wired to the real service layer with raising
read and search clients. -/
def opsSearchBoom : EmailOps :=
serviceOps (fun _ _ _ => Except.ok true) (fun _ => Except.error "boom") (Except.error "boom")
  (fun _ _ _ _ => Except.error "boom") (fun _ _ _ => Except.error "boom") Except.ok (fun _ => "t")

/-! ### Helper lemmas -/

theorem add_message_phase (s : ConversationState) (r c : String) :
    (s.add_message r c).phase = s.phase := rfl

theorem add_message_draft (s : ConversationState) (r c : String) :
    (s.add_message r c).draft_email = s.draft_email := rfl

theorem add_message_current_intent (s : ConversationState) (r c : String) :
    (s.add_message r c).current_intent = s.current_intent := rfl

theorem capHistory_append_singleton (h : List Message) (m : Message) :
    ∃ pre, capHistory (h ++ [m]) = pre ++ [m] ∧ (capHistory (h ++ [m])).length ≤ 20 := by
  refine ⟨h.drop ((h.length + 1) - 20), ?_, ?_⟩
  · unfold capHistory
    rw [List.length_append, List.length_singleton,
        List.drop_append_of_le_length (by omega)]
  · unfold capHistory
    rw [List.length_drop, List.length_append, List.length_singleton]
    omega

theorem capHistory_append_pair (h : List Message) (m₁ m₂ : Message)
    (hh : ∃ pre, h = pre ++ [m₁]) (hlen : h.length ≤ 20) :
    ∃ q, capHistory (h ++ [m₂]) = q ++ [m₁, m₂] := by
  obtain ⟨pre, rfl⟩ := hh
  rw [List.length_append, List.length_singleton] at hlen
  refine ⟨pre.drop ((pre.length + 2) - 20), ?_⟩
  unfold capHistory
  rw [List.append_assoc]
  have hl : (pre ++ ([m₁] ++ [m₂])).length = pre.length + 2 := by
    simp [List.length_append]
  rw [hl, List.drop_append_of_le_length (by omega)]
  rfl

theorem getLast?_append_pair (q : List Message) (m₁ m₂ : Message) :
    (q ++ [m₁, m₂]).getLast? = some m₂ := by
  have : q ++ [m₁, m₂] = (q ++ [m₁]) ++ [m₂] := by simp
  rw [this]; simp

theorem dropLast_getLast?_append_pair (q : List Message) (m₁ m₂ : Message) :
    (q ++ [m₁, m₂]).dropLast.getLast? = some m₁ := by
  have : q ++ [m₁, m₂] = (q ++ [m₁]) ++ [m₂] := by simp
  rw [this]; simp

theorem handle_send_email_history (s : ConversationState) (intent : UserIntent) :
    (handle_send_email s intent).1.conversation_history = s.conversation_history := by
  simp only [handle_send_email]
  repeat' split
  all_goals rfl

theorem handle_read_email_history (read : Nat → Except String (List EmailSummary))
    (s : ConversationState) (intent : UserIntent) :
    (handle_read_email read s intent).1.conversation_history = s.conversation_history := by
  simp only [handle_read_email]
  repeat' split
  all_goals rfl

theorem handle_search_email_history
    (search : String → String → Except String (List SearchResult))
    (s : ConversationState) (intent : UserIntent) :
    (handle_search_email search s intent).1.conversation_history = s.conversation_history := by
  simp only [handle_search_email]
  repeat' split
  all_goals rfl

theorem handle_confirmation_history (send : SendCall → Except String EmailResponse)
    (s : ConversationState) :
    (handle_confirmation send s).1.conversation_history = s.conversation_history := by
  simp only [handle_confirmation]
  repeat' split
  all_goals rfl

theorem handle_cancel_history (s : ConversationState) :
    (handle_cancel s).1.conversation_history = s.conversation_history := by
  simp only [handle_cancel]
  repeat' split
  all_goals rfl

theorem handle_unclear_history (s : ConversationState) :
    (handle_unclear s).1.conversation_history = s.conversation_history := by
  simp only [handle_unclear]
  repeat' split
  all_goals rfl

theorem dispatch_history (ops : EmailOps) (s : ConversationState) (intent : UserIntent) :
    (dispatch ops s intent).1.conversation_history = s.conversation_history := by
  unfold dispatch
  cases intent.type <;>
    simp [handle_send_email_history, handle_read_email_history,
          handle_search_email_history, handle_confirmation_history,
          handle_cancel_history, handle_unclear_history, handle_reply_email,
          handle_help]

theorem handle_confirmation_phase_history (send : SendCall → Except String EmailResponse)
    (s : ConversationState) (text : String) :
    (handle_confirmation_phase send s text).1.conversation_history = s.conversation_history := by
  simp only [handle_confirmation_phase]
  repeat' split
  all_goals first
  | rfl
  | exact handle_confirmation_history send s

theorem process_not_waiting (ops : EmailOps) (s : ConversationState)
    (text : String) (intent : UserIntent)
    (hph : s.phase ≠ ConversationPhase.waitingConfirmation) :
    process_user_input ops s text intent =
      { state := (dispatch ops (s.add_message "user" text) intent).1.add_message "assistant"
                   (dispatch ops (s.add_message "user" text) intent).2.1,
        response := (dispatch ops (s.add_message "user" text) intent).2.1,
        sendCalls := (dispatch ops (s.add_message "user" text) intent).2.2 } := by
  simp only [process_user_input, add_message_phase]
  rw [if_neg hph]

theorem process_waiting (ops : EmailOps) (s : ConversationState)
    (text : String) (intent : UserIntent)
    (hph : s.phase = ConversationPhase.waitingConfirmation) :
    process_user_input ops s text intent =
      { state := (handle_confirmation_phase ops.send (s.add_message "user" text) text).1,
        response := (handle_confirmation_phase ops.send (s.add_message "user" text) text).2.1,
        sendCalls := (handle_confirmation_phase ops.send (s.add_message "user" text) text).2.2 } := by
  simp only [process_user_input, add_message_phase]
  rw [if_pos hph]

theorem recognize_intent_not_accepted (aiResult : Option IntentClassification)
    (patternMatch : Option (IntentType × Entities)) (text : String)
    (context : Option ConversationState)
    (hai : ∀ cls, aiResult = some cls → cls.confidence ≤ 7/10) :
    recognize_intent aiResult patternMatch text context =
      pattern_intent_recognition patternMatch text context := by
  cases aiResult with
  | none => rfl
  | some cls => simp [recognize_intent, not_lt.mpr (hai cls rfl)]

theorem isEmpty_false_of_ne (s : String) (h : s ≠ "") : s.isEmpty = false := by
  rw [Bool.eq_false_iff]
  intro he
  exact h ((String.isEmpty_iff s).mp he)

theorem string_ne_of_data_take (n : Nat) (s t : String)
    (h : s.data.take n ≠ t.data.take n) : s ≠ t := by
  intro he; exact h (by rw [he])

theorem data_take_append (n : Nat) (x y : String) (h : n ≤ x.data.length) :
    ((x ++ y).data.take n) = x.data.take n := by
  rw [String.data_append, List.take_append_of_le_length h]

theorem search_emails_all_error (useAi : Bool) (query sf : String) (limit : Nat) (e : String)
    (summarize : String → Except String String) (fmtDate : Nat → String) :
    search_emails useAi query sf limit (Except.error e)
      (fun _ _ _ _ => Except.error e) (fun _ _ _ => Except.error e) summarize fmtDate = [] := by
  have hcore : search_emails_core useAi query sf limit (Except.error e)
      (fun _ _ _ _ => Except.error e) (fun _ _ _ => Except.error e) summarize fmtDate =
      Except.error e := by
    unfold search_emails_core
    split <;> rfl
  unfold search_emails
  rw [hcore]

theorem addAll_history (msgs : List (String × String)) (s : ConversationState)
    (hs : s.conversation_history.length ≤ 20) :
    (addAll s msgs).conversation_history =
      (s.conversation_history ++ msgs.map mkMessage).drop
        ((s.conversation_history.length + msgs.length) - 20) := by
  induction msgs generalizing s with
  | nil =>
    simp only [addAll, List.foldl_nil, List.map_nil, List.append_nil, List.length_nil,
      Nat.add_zero]
    rw [Nat.sub_eq_zero_of_le hs, List.drop_zero]
  | cons p ms ih =>
    have hstep : addAll s (p :: ms) = addAll (s.add_message p.1 p.2) ms := rfl
    have hist' : (s.add_message p.1 p.2).conversation_history =
        (s.conversation_history ++ [mkMessage p]).drop
          ((s.conversation_history.length + 1) - 20) := by
      simp [ConversationState.add_message, capHistory, mkMessage, List.length_append]
    have hlen' : (s.add_message p.1 p.2).conversation_history.length ≤ 20 := by
      rw [hist', List.length_drop, List.length_append, List.length_singleton]
      omega
    rw [hstep, ih _ hlen', hist']
    rw [← @List.drop_append_of_le_length _ (s.conversation_history ++ [mkMessage p])
        (ms.map mkMessage) (s.conversation_history.length + 1 - 20)
        (by rw [List.length_append, List.length_singleton]; omega)]
    rw [List.drop_drop]
    have hre : (s.conversation_history ++ [mkMessage p]) ++ ms.map mkMessage =
        s.conversation_history ++ (p :: ms).map mkMessage := by
      simp [mkMessage]
    rw [hre]
    congr 1
    simp only [List.length_drop, List.length_append, List.length_singleton,
      List.length_map, List.length_cons, List.length_nil]
    omega

/-! ### Claim theorems -/

/-- C1: confirming "yes" in `WAITING_CONFIRMATION` with a complete
`SEND_EMAIL` draft issues exactly one send call with the draft's exact
recipient, subject and body, and the state is reset (draft cleared, phase
idle, intent cleared); but because `reset()` runs before the success
message reads `draft_email.recipient`, the attribute access raises and the
returned utterance is the send-error apology, not a confirmation naming
the recipient.  This theorem evaluates the embedded code at that failing
input. -/
theorem C1_confirm_send_resets_but_misreports :
    (process_user_input opsEmpty stateWaiting "yes" (bareIntent .confirm)).sendCalls =
      [{ «to» := some "a@b.com", subject := some "Hello", body := some "Hi there" }] ∧
    (process_user_input opsEmpty stateWaiting "yes" (bareIntent .confirm)).state.phase =
      ConversationPhase.idle ∧
    (process_user_input opsEmpty stateWaiting "yes" (bareIntent .confirm)).state.draft_email =
      none ∧
    (process_user_input opsEmpty stateWaiting "yes" (bareIntent .confirm)).state.current_intent =
      none ∧
    (process_user_input opsEmpty stateWaiting "yes" (bareIntent .confirm)).response =
      "I encountered an error sending the email. Please try again." ∧
    (process_user_input opsEmpty stateWaiting "yes" (bareIntent .confirm)).response ≠
      "Great! I\x27ve sent your email to a@b.com." := by
  decide

/-- C3: an AI classification whose confidence is at most 0.7 (in
particular exactly 0.7) is never accepted: `recognize_intent` returns the
pattern-matching fallback instead. -/
theorem C3_low_confidence_never_accepted (d : IntentClassification)
    (patternMatch : Option (IntentType × Entities)) (text : String)
    (context : Option ConversationState) (h : d.confidence ≤ 7/10) :
    recognize_intent (some d) patternMatch text context =
      pattern_intent_recognition patternMatch text context := by
  refine recognize_intent_not_accepted _ _ _ _ ?_
  intro cls hcls
  cases hcls
  exact h

/-- Witness for C3 at confidence exactly 0.7. -/
theorem C3_low_confidence_never_accepted_witness :
    ((7 : ℚ)/10 ≤ 7/10) ∧
    recognize_intent (some { intent := .confirm, confidence := 7/10 }) none "yes" none =
      pattern_intent_recognition none "yes" none :=
  ⟨le_refl _,
   C3_low_confidence_never_accepted { intent := .confirm, confidence := 7/10 } none "yes"
     none (le_refl _)⟩

/-- C4: starting from a fresh state, after any sequence of `add_message`
calls the history is exactly the last-20 suffix of all messages in order
(so it never exceeds 20 entries, eviction is FIFO from the oldest end, and
the relative order of retained entries is preserved). -/
theorem C4_history_cap_fifo (msgs : List (String × String)) :
    (addAll {} msgs).conversation_history =
      (msgs.map mkMessage).drop (msgs.length - 20) ∧
    (addAll {} msgs).conversation_history.length ≤ 20 := by
  have h0 : ({} : ConversationState).conversation_history = ([] : List Message) := rfl
  have h := addAll_history msgs {} (by rw [h0]; simp)
  rw [h0] at h
  simp only [List.nil_append, List.length_nil, Nat.zero_add] at h
  refine ⟨h, ?_⟩
  rw [h, List.length_drop, List.length_map]
  omega

set_option maxRecDepth 8000 in
/-- C7: a `READ_EMAIL` turn with zero emails returns the fixed
no-new-emails message but leaves the phase at `PROCESSING` (the code
never sets it back to `IDLE` on that branch, unlike every sibling branch),
while with five emails the summary inlines exactly the first three and
says "And 2 more", ending at phase `IDLE`.  Evaluates the embedded code on
both inputs. -/
theorem C7_read_email_zero_and_five :
    (process_user_input opsEmpty {} "read my emails" (bareIntent .readEmail)).response =
      "You don\x27t have any new emails in your inbox." ∧
    (process_user_input opsEmpty {} "read my emails" (bareIntent .readEmail)).state.phase =
      ConversationPhase.processing ∧
    ConversationPhase.processing ≠ ConversationPhase.idle ∧
    (process_user_input opsFive {} "read my emails" (bareIntent .readEmail)).response =
      "You have 5 recent emails. Email 1: From A, subject: sa. Email 2: From B, subject: sb. Email 3: From C, subject: sc. And 2 more. Would you like me to read any of these in detail?" ∧
    (process_user_input opsFive {} "read my emails" (bareIntent .readEmail)).state.phase =
      ConversationPhase.idle := by
  decide

/-- C6 counterexample: for the utterance consisting of an x followed by a
space, in `COLLECTING_INFO` for `SEND_EMAIL` with a fresh draft and no
pattern match, the recognizer stores the stripped text, not the full
utterance text: the recipient entity is the one-character string, which
differs from the utterance. -/
theorem C6_counterexample :
    (recognize_intent none none "x " (some stateCollecting)).entities.recipient = some "x" ∧
    some "x" ≠ some ("x " : String) := by
  decide

/-- C6 (amended): with no accepted AI result and no pattern match, in
`COLLECTING_INFO` for `SEND_EMAIL` with a draft present, the recognizer
returns intent `SEND_EMAIL` with confidence 0.7 and entities mapping
exactly the first still-empty draft field — checked in fixed order
recipient, then subject, then body — to the whitespace-stripped utterance
text. -/
theorem C6_context_slot_filling (aiResult : Option IntentClassification)
    (text : String) (c : ConversationState) (d : EmailDraft)
    (hai : ∀ cls, aiResult = some cls → cls.confidence ≤ 7/10)
    (hphase : c.phase = ConversationPhase.collectingInfo)
    (hintent : c.current_intent = some IntentType.sendEmail)
    (hdraft : c.draft_email = some d) :
    (recognize_intent aiResult none text (some c)).type = IntentType.sendEmail ∧
    (recognize_intent aiResult none text (some c)).confidence = 7/10 ∧
    (optStrTruthy d.recipient = false →
      (recognize_intent aiResult none text (some c)).entities =
        { recipient := some (pyStrip text) }) ∧
    (optStrTruthy d.recipient = true → optStrTruthy d.subject = false →
      (recognize_intent aiResult none text (some c)).entities =
        { subject := some (pyStrip text) }) ∧
    (optStrTruthy d.recipient = true → optStrTruthy d.subject = true →
      optStrTruthy d.body = false →
      (recognize_intent aiResult none text (some c)).entities =
        { body := some (pyStrip text) }) := by
  rw [recognize_intent_not_accepted aiResult none text (some c) hai]
  simp only [pattern_intent_recognition, hphase, if_true, context_based_intent,
    hdraft, hintent]
  refine ⟨by simp, by simp, ?_, ?_, ?_⟩
  · intro h1
    simp [h1]
  · intro h1 h2
    simp [h1, h2]
  · intro h1 h2 h3
    simp [h1, h2, h3]

/-- Witness for C6 (amended) on a fresh draft and the utterance of an x
followed by a space. -/
theorem C6_context_slot_filling_witness :
    (recognize_intent none none "x " (some stateCollecting)).type = IntentType.sendEmail ∧
    (recognize_intent none none "x " (some stateCollecting)).entities =
      { recipient := some (pyStrip "x ") } := by
  have h := C6_context_slot_filling none "x " stateCollecting {}
    (fun cls hcl => by cases hcl) rfl rfl rfl
  exact ⟨h.1, h.2.2.1 rfl⟩

/-- C8 counterexample: the utterance "wait, yes" contains the negative
word "wait", yet processing it in `WAITING_CONFIRMATION` does not move to
`COLLECTING_INFO` with the draft intact: the positive-word scan runs
first, finds "yes", and the email is sent (one send call, state reset). -/
theorem C8_counterexample :
    strContains (pyLower "wait, yes") "wait" = true ∧
    (process_user_input opsEmpty stateWaiting "wait, yes" (bareIntent .cancel)).state.phase ≠
      ConversationPhase.collectingInfo ∧
    (process_user_input opsEmpty stateWaiting "wait, yes" (bareIntent .cancel)).state.draft_email ≠
      stateWaiting.draft_email ∧
    (process_user_input opsEmpty stateWaiting "wait, yes" (bareIntent .cancel)).sendCalls ≠
      [] := by
  decide

/-- C8 (amended): in `WAITING_CONFIRMATION`, an utterance containing a
negative word and none of the positive words moves the phase to
`COLLECTING_INFO` and leaves the draft email unchanged, issuing no send
call. -/
theorem C8_negative_word_keeps_draft (ops : EmailOps) (s : ConversationState)
    (text : String) (intent : UserIntent)
    (hph : s.phase = ConversationPhase.waitingConfirmation)
    (hneg : negativeWords.any (fun w => strContains (pyLower text) w) = true)
    (hpos : positiveWords.any (fun w => strContains (pyLower text) w) = false) :
    (process_user_input ops s text intent).state.phase = ConversationPhase.collectingInfo ∧
    (process_user_input ops s text intent).state.draft_email = s.draft_email ∧
    (process_user_input ops s text intent).response = "Okay, what would you like to change?" ∧
    (process_user_input ops s text intent).sendCalls = [] := by
  simp only [process_user_input, add_message_phase, hph, if_true, reduceIte,
    handle_confirmation_phase, hneg, hpos, Bool.false_eq_true, if_false]
  refine ⟨?_, ?_, ?_, ?_⟩ <;> trivial

/-- Witness for C8 (amended) on the utterance "no". -/
theorem C8_negative_word_keeps_draft_witness :
    (process_user_input opsEmpty stateWaiting "no" (bareIntent .cancel)).state.phase =
      ConversationPhase.collectingInfo ∧
    (process_user_input opsEmpty stateWaiting "no" (bareIntent .cancel)).state.draft_email =
      stateWaiting.draft_email ∧
    (process_user_input opsEmpty stateWaiting "no" (bareIntent .cancel)).response =
      "Okay, what would you like to change?" ∧
    (process_user_input opsEmpty stateWaiting "no" (bareIntent .cancel)).sendCalls = [] :=
  C8_negative_word_keeps_draft opsEmpty stateWaiting "no" (bareIntent .cancel)
    rfl (by decide) (by decide)

/-- C9 counterexample: even with phase `IDLE` and a `CANCEL` intent, a
processed turn does mutate the conversation state, because the user and
assistant messages are recorded in the history. -/
theorem C9_counterexample :
    ({} : ConversationState).phase = ConversationPhase.idle ∧
    (process_user_input opsEmpty {} "cancel" (bareIntent .cancel)).state ≠
      ({} : ConversationState) := by
  decide

/-- C9 (amended): with phase `IDLE`, a turn classified as `CANCEL` always
returns the fixed nothing-to-cancel message, issues no send call, and
leaves the state unchanged except for recording the turn's user and
assistant messages in the history. -/
theorem C9_cancel_idle_frame (ops : EmailOps) (s : ConversationState)
    (text : String) (intent : UserIntent)
    (hph : s.phase = ConversationPhase.idle)
    (hty : intent.type = IntentType.cancel) :
    (process_user_input ops s text intent).response =
      "There\x27s nothing to cancel. How can I help you?" ∧
    (process_user_input ops s text intent).state =
      (s.add_message "user" text).add_message "assistant"
        "There\x27s nothing to cancel. How can I help you?" ∧
    (process_user_input ops s text intent).sendCalls = [] := by
  simp only [process_user_input, add_message_phase, hph, reduceCtorEq, if_false,
    dispatch, hty, handle_cancel, if_true, reduceIte]
  refine ⟨?_, ?_, ?_⟩ <;> trivial

/-- Witness for C9 (amended) on a fresh idle state. -/
theorem C9_cancel_idle_frame_witness :
    (process_user_input opsEmpty {} "cancel" (bareIntent .cancel)).response =
      "There\x27s nothing to cancel. How can I help you?" ∧
    (process_user_input opsEmpty {} "cancel" (bareIntent .cancel)).state =
      (({} : ConversationState).add_message "user" "cancel").add_message "assistant"
        "There\x27s nothing to cancel. How can I help you?" ∧
    (process_user_input opsEmpty {} "cancel" (bareIntent .cancel)).sendCalls = [] :=
  C9_cancel_idle_frame opsEmpty {} "cancel" (bareIntent .cancel) rfl rfl

/-- C2 counterexample: on the `WAITING_CONFIRMATION` bypass path the
returned response is not recorded: after processing "maybe" in that phase
the history holds only the user message, so the last two entries are not
the user utterance followed by the returned response. -/
theorem C2_counterexample :
    stateWaiting.phase = ConversationPhase.waitingConfirmation ∧
    (process_user_input opsEmpty stateWaiting "maybe" (bareIntent .unclear)).state.conversation_history =
      [{ role := "user", content := "maybe" }] ∧
    (process_user_input opsEmpty stateWaiting "maybe" (bareIntent .unclear)).state.conversation_history.getLast? ≠
      some { role := "assistant",
             content := (process_user_input opsEmpty stateWaiting "maybe" (bareIntent .unclear)).response } := by
  decide

/-- C2 (amended): `process_user_input` first appends the user text to
history; on every dispatch path other than the `WAITING_CONFIRMATION`
bypass the returned response is then appended as an assistant message, so
the last two history entries are the user utterance followed by the
returned response; on the bypass path only the user message is recorded
and the history ends with it. -/
theorem C2_turn_history_recording (ops : EmailOps) (s : ConversationState)
    (text : String) (intent : UserIntent) :
    (s.phase ≠ ConversationPhase.waitingConfirmation →
      (process_user_input ops s text intent).state.conversation_history.getLast? =
        some { role := "assistant",
               content := (process_user_input ops s text intent).response } ∧
      (process_user_input ops s text intent).state.conversation_history.dropLast.getLast? =
        some { role := "user", content := text }) ∧
    (s.phase = ConversationPhase.waitingConfirmation →
      (process_user_input ops s text intent).state.conversation_history =
        (s.add_message "user" text).conversation_history ∧
      (process_user_input ops s text intent).state.conversation_history.getLast? =
        some { role := "user", content := text }) := by
  constructor
  · intro hph
    rw [process_not_waiting ops s text intent hph]
    obtain ⟨pre, hpre, hlen⟩ :=
      capHistory_append_singleton s.conversation_history { role := "user", content := text }
    have hs0 : (s.add_message "user" text).conversation_history =
        pre ++ [{ role := "user", content := text }] := hpre
    have hs0len : (s.add_message "user" text).conversation_history.length ≤ 20 := hlen
    have hd : (dispatch ops (s.add_message "user" text) intent).1.conversation_history =
        pre ++ [{ role := "user", content := text }] := by
      rw [dispatch_history]; exact hs0
    have hdlen : (dispatch ops (s.add_message "user" text) intent).1.conversation_history.length ≤ 20 := by
      rw [dispatch_history]; exact hs0len
    obtain ⟨q, hq⟩ := capHistory_append_pair
      (dispatch ops (s.add_message "user" text) intent).1.conversation_history
      { role := "user", content := text }
      { role := "assistant", content := (dispatch ops (s.add_message "user" text) intent).2.1 }
      ⟨pre, hd⟩ hdlen
    have hfin : ((dispatch ops (s.add_message "user" text) intent).1.add_message "assistant"
        (dispatch ops (s.add_message "user" text) intent).2.1).conversation_history =
        q ++ [{ role := "user", content := text },
              { role := "assistant",
                content := (dispatch ops (s.add_message "user" text) intent).2.1 }] := hq
    constructor
    · show ((dispatch ops (s.add_message "user" text) intent).1.add_message "assistant"
          (dispatch ops (s.add_message "user" text) intent).2.1).conversation_history.getLast? = _
      rw [hfin]
      exact getLast?_append_pair q _ _
    · show ((dispatch ops (s.add_message "user" text) intent).1.add_message "assistant"
          (dispatch ops (s.add_message "user" text) intent).2.1).conversation_history.dropLast.getLast? = _
      rw [hfin]
      exact dropLast_getLast?_append_pair q _ _
  · intro hph
    rw [process_waiting ops s text intent hph]
    refine ⟨handle_confirmation_phase_history ops.send (s.add_message "user" text) text, ?_⟩
    show (handle_confirmation_phase ops.send (s.add_message "user" text) text).1.conversation_history.getLast? = _
    rw [handle_confirmation_phase_history ops.send (s.add_message "user" text) text]
    obtain ⟨pre, hpre, _⟩ :=
      capHistory_append_singleton s.conversation_history { role := "user", content := text }
    have hs0 : (s.add_message "user" text).conversation_history =
        pre ++ [{ role := "user", content := text }] := hpre
    rw [hs0]
    simp

/-- Witness for C2 (amended): one normal turn from the idle state, and one
bypass turn from `WAITING_CONFIRMATION`. -/
theorem C2_turn_history_recording_witness :
    ((process_user_input opsEmpty {} "hi" (bareIntent .help)).state.conversation_history.getLast? =
      some { role := "assistant",
             content := (process_user_input opsEmpty {} "hi" (bareIntent .help)).response } ∧
     (process_user_input opsEmpty {} "hi" (bareIntent .help)).state.conversation_history.dropLast.getLast? =
      some { role := "user", content := "hi" }) ∧
    ((process_user_input opsEmpty stateWaiting "perhaps" (bareIntent .unclear)).state.conversation_history =
      (stateWaiting.add_message "user" "perhaps").conversation_history ∧
     (process_user_input opsEmpty stateWaiting "perhaps" (bareIntent .unclear)).state.conversation_history.getLast? =
      some { role := "user", content := "perhaps" }) :=
  ⟨(C2_turn_history_recording opsEmpty {} "hi" (bareIntent .help)).1 (by decide),
   (C2_turn_history_recording opsEmpty stateWaiting "perhaps" (bareIntent .unclear)).2 rfl⟩

/-- C5: a `SEND_EMAIL` intent carrying a nonempty recipient, subject and
body reaches `WAITING_CONFIRMATION` in that same single turn — no
missing-field prompt — and the returned utterance is the confirmation
prompt restating recipient, subject and body. -/
theorem C5_complete_entities_single_turn (ops : EmailOps) (s : ConversationState)
    (text : String) (intent : UserIntent) (r sub b : String)
    (hty : intent.type = IntentType.sendEmail)
    (hr : intent.entities.recipient = some r)
    (hsub : intent.entities.subject = some sub)
    (hb : intent.entities.body = some b)
    (hr0 : r ≠ "") (hsub0 : sub ≠ "") (hb0 : b ≠ "")
    (hph : s.phase ≠ ConversationPhase.waitingConfirmation) :
    (process_user_input ops s text intent).state.phase =
      ConversationPhase.waitingConfirmation ∧
    (process_user_input ops s text intent).response =
      "I\x27m ready to send an email to " ++ r ++ " with the subject \x27" ++ sub ++
      "\x27. The message says: " ++ b ++ ". Should I send it?" ∧
    (process_user_input ops s text intent).sendCalls = [] := by
  rw [process_not_waiting ops s text intent hph]
  simp only [dispatch, hty, handle_send_email, hr, hsub, hb,
    get_missing_email_fields, optStrTruthy, isEmpty_false_of_ne r hr0,
    isEmpty_false_of_ne sub hsub0, isEmpty_false_of_ne b hb0, Bool.not_false,
    if_true, reduceIte, List.append_nil, List.nil_append,
    format_email_confirmation, pyStr, add_message_phase]
  refine ⟨?_, ?_, ?_⟩ <;> trivial

/-- Witness for C5 on a concrete complete entity bundle. -/
theorem C5_complete_entities_single_turn_witness :
    (process_user_input opsEmpty {} "send an email"
      { type := .sendEmail, confidence := 1,
        entities := { recipient := some "a@b.com", subject := some "S", body := some "B" } }).state.phase =
      ConversationPhase.waitingConfirmation ∧
    (process_user_input opsEmpty {} "send an email"
      { type := .sendEmail, confidence := 1,
        entities := { recipient := some "a@b.com", subject := some "S", body := some "B" } }).response =
      "I\x27m ready to send an email to " ++ "a@b.com" ++ " with the subject \x27" ++ "S" ++
      "\x27. The message says: " ++ "B" ++ ". Should I send it?" ∧
    (process_user_input opsEmpty {} "send an email"
      { type := .sendEmail, confidence := 1,
        entities := { recipient := some "a@b.com", subject := some "S", body := some "B" } }).sendCalls = [] :=
  C5_complete_entities_single_turn opsEmpty {} "send an email"
    { type := .sendEmail, confidence := 1,
      entities := { recipient := some "a@b.com", subject := some "S", body := some "B" } }
    "a@b.com" "S" "B" rfl rfl rfl rfl (by decide) (by decide) (by decide) (by decide)

/-- C10 counterexample: the manager\x27s exception-handling branches for
send and search are not unreachable through the service layer.  With
clients that never raise, confirming a complete draft still produces the
send-error apology (the manager\x27s own post-reset attribute access
raises inside the same `try`), and a search whose client successfully
returns one email produces the trouble-searching apology (the listing
loop reads `email.sender_name` on a `SearchResult`, raising
`AttributeError` into the `except` branch). -/
theorem C10_counterexample :
    (process_user_input opsService stateWaiting "yes" (bareIntent .confirm)).response =
      "I encountered an error sending the email. Please try again." ∧
    (process_user_input opsService stateWaiting "yes" (bareIntent .confirm)).sendCalls ≠
      [] ∧
    (process_user_input opsSearchOne {} "find a" searchIntentA).response =
      "I had trouble searching your emails. Please try again." ∧
    (process_user_input opsSearchOne {} "find a" searchIntentA).state.phase =
      ConversationPhase.idle := by
  decide

/-- C10 (amended): the email service layer is total at its public
interface — an underlying client exception is caught and becomes a
failure `EmailResponse` (send) or an empty list (read/search), so no
service-raised exception reaches the manager.  Consequently the read
handler\x27s trouble-accessing apology is unreachable through this
service, and a backend read or search failure is spoken as the
empty-result message.  (The send and search handlers\x27 `except`
branches are not covered: they are still entered by the manager\x27s own
attribute errors — send on the success path after `reset()`, search on
every nonempty result list.) -/
theorem C10_service_layer_totality
    (e : String) (req : EmailRequest)
    (clientSend : Option (List Sender) → Option String → Option String → Except String Bool)
    (clientRead : Nat → Except String (List Email))
    (clientReadBulk : Except String (List Email))
    (vectorSearch : List Email → String → String → Nat → Except String (List (Email × ℚ)))
    (clientSearch : String → String → Nat → Except String (List Email))
    (summarize : String → Except String String) (fmtDate : Nat → String)
    (useAi : Bool) (query search_field : String) (limit : Nat)
    (s : ConversationState) (text : String) (intentR intentS : UserIntent) :
    send_email (fun _ _ _ => Except.error e) req =
      { success := false, message := "Failed to send email", error := some e } ∧
    read_recent_emails (Except.error e) summarize fmtDate = [] ∧
    search_emails useAi query search_field limit (Except.error e)
      (fun _ _ _ _ => Except.error e) (fun _ _ _ => Except.error e) summarize fmtDate = [] ∧
    (intentR.type = IntentType.readEmail →
      s.phase ≠ ConversationPhase.waitingConfirmation →
      (process_user_input (serviceOps clientSend clientRead clientReadBulk vectorSearch
          clientSearch summarize fmtDate) s text intentR).response ≠
        "I had trouble accessing your emails. Please try again later." ∧
      (clientRead (intentR.entities.count.getD 3) = Except.error e →
        (process_user_input (serviceOps clientSend clientRead clientReadBulk vectorSearch
            clientSearch summarize fmtDate) s text intentR).response =
          "You don\x27t have any new emails in your inbox.")) ∧
    (intentS.type = IntentType.searchEmail →
      s.phase ≠ ConversationPhase.waitingConfirmation →
      intentS.entities.query.getD "" ≠ "" →
      (process_user_input (serviceOps clientSend clientRead (Except.error e)
          (fun _ _ _ _ => Except.error e) (fun _ _ _ => Except.error e) summarize fmtDate)
        s text intentS).response =
        "I couldn\x27t find any emails matching \x27" ++
          (intentS.entities.query.getD "" ++ "\x27.")) := by
  refine ⟨rfl, rfl, search_emails_all_error _ _ _ _ _ _ _, ?_, ?_⟩
  · intro hty hph
    rw [process_not_waiting _ _ _ _ hph]
    simp only [dispatch, hty, handle_read_email, serviceOps]
    constructor
    · cases hE : (read_recent_emails (clientRead (intentR.entities.count.getD 3))
          summarize fmtDate).isEmpty with
      | true =>
        simp only [hE, if_true, reduceIte]
        decide
      | false =>
        simp only [hE, Bool.false_eq_true, if_false, reduceIte]
        apply string_ne_of_data_take 1
        rw [data_take_append 1 _ _ (by decide)]
        decide
    · intro hre
      simp only [hre]
      have hnil : read_recent_emails (Except.error e) summarize fmtDate = [] := rfl
      simp only [hnil, List.isEmpty_nil, if_true, reduceIte]
  · intro hty hph hq
    rw [process_not_waiting _ _ _ _ hph]
    simp only [dispatch, hty, handle_search_email, serviceOps]
    rw [if_neg hq]
    simp only [search_emails_all_error, List.isEmpty_nil, if_true, reduceIte]

/-- Witness for C10 (amended): a raising read client yields the empty
list at the service layer and the empty-inbox message through the
manager, and a raising search client is spoken as the no-matching-emails
message, not the trouble-searching apology. -/
theorem C10_service_layer_totality_witness :
    read_recent_emails (Except.error "boom") Except.ok (fun _ => "t") = [] ∧
    (process_user_input opsReadBoom {} "go" (bareIntent .readEmail)).response =
      "You don\x27t have any new emails in your inbox." ∧
    (process_user_input opsSearchBoom {} "go" searchIntentA).response =
      "I couldn\x27t find any emails matching \x27" ++
        (searchIntentA.entities.query.getD "" ++ "\x27.") := by
  have h := C10_service_layer_totality "boom"
    { «to» := some "a@b.com", subject := some "S", body := some "B" }
    (fun _ _ _ => Except.ok true) (fun _ => Except.error "boom") (Except.ok [])
    (fun _ _ _ _ => Except.ok []) (fun _ _ _ => Except.ok []) Except.ok (fun _ => "t")
    true "q" "all" 5 {} "go" (bareIntent .readEmail) searchIntentA
  exact ⟨h.2.1, (h.2.2.2.1 rfl (by decide)).2 rfl, h.2.2.2.2 rfl (by decide) (by decide)⟩

end Orion
